import Mathlib

/-
Verification development for the MedAssist chat client (medical-qa-ui).
The definitions below are a shallow embedding of the client-side session
manager: the `useChat` hook (chat session store), the `useChatHistory`
hook (session directory store), the helper utilities (`validateMessage`,
`generateSessionId`), the `useAutoScroll` hook and the `ChatInterface`
scroll effect, and the `MessageInput.handleSubmit` input surface.

JavaScript nondeterminism (Date.now(), new Date().toISOString(),
Math.random()) is passed in explicitly; remote calls are modelled by an
`Except JsError _` outcome supplied by the environment, and every store
operation additionally returns the list of API calls it issued.
-/

namespace MedAssist

/-- A thrown JavaScript value: either an `Error` with a message, or any
other value (the `error instanceof Error` test distinguishes the two). -/
inductive JsError where
  | err (message : String)
  | other
deriving DecidableEq

/-- `error instanceof Error ? error.message : fallback`. -/
def errorText (e : JsError) (fallback : String) : String :=
  match e with
  | .err m => m
  | .other => fallback

/-- `message_type` field of a ChatMessage (services/types.ts). -/
inductive MessageType where
  | user
  | assistant
deriving DecidableEq

/-- ContextDocument (services/types.ts). Scores are JS numbers, modelled
as rationals. -/
structure ContextDocument where
  question : String
  answer : String
  category : Option String
  similarity_score : Rat
deriving DecidableEq

/-- ChatMessage (services/types.ts). -/
structure ChatMessage where
  id : Int
  message_type : MessageType
  content : String
  timestamp : String
  evaluation_score : Option Rat
  retrieved_context : Option (List ContextDocument)
deriving DecidableEq

/-- ChatResponse (services/types.ts). -/
structure ChatResponse where
  message_id : Int
  session_id : String
  response : String
  evaluation_score : Option Rat
  retrieved_context : List ContextDocument
  response_time : Rat
  timestamp : String
  is_medical : Bool
  query_type : Option String
deriving DecidableEq

/-- ChatHistoryResponse (services/types.ts). -/
structure ChatHistoryResponse where
  session_id : String
  messages : List ChatMessage
  total_count : Int
  has_more : Bool
deriving DecidableEq

/-- ChatSession summary (services/types.ts), as listed in the directory. -/
structure ChatSession where
  session_id : String
  created_at : String
  message_count : Int
  is_active : Bool
deriving DecidableEq

/-- The API calls the stores can issue (services/api.ts).
`getChatHistory` carries the page bounds of
`ApiService.getChatHistory(sessionId, limit = 50, offset = 0)`. -/
inductive ApiCall where
  | sendMessageCall (message : String) (session_id : String)
  | getChatHistory (sessionId : String) (limit : Int) (offset : Int)
  | getChatSessions
  | deleteChatSession (sessionId : String)
deriving DecidableEq

/-- State owned by the `useChat` hook: message log, active session id,
loading flag, last error, and the `lastMessageRef` retry buffer. -/
structure ChatState where
  messages : List ChatMessage
  currentSessionId : String
  isLoading : Bool
  error : Option String
  lastMessageRef : String
deriving DecidableEq

/-- `generateSessionId` (utils/helpers.ts): a template string built from
`Date.now()` and a random suffix, both supplied by the environment. -/
def generateSessionId (now : Int) (rand : String) : String :=
  "session-" ++ toString now ++ "-" ++ rand

/-- Nondeterministic inputs consumed by one `sendMessage` run:
`Date.now()`/ISO timestamp at the optimistic append, and again in the
catch branch. -/
structure SendEnv where
  now : Int
  nowIso : String
  errNow : Int
  errIso : String
deriving DecidableEq

/-- JavaScript string truthiness: a string is falsy exactly when empty. -/
def strFalsy (s : String) : Bool :=
  s.data.isEmpty

/-- `String.prototype.trim`: strip leading and trailing whitespace. -/
def jsTrim (s : String) : String :=
  String.mk (((s.data.dropWhile Char.isWhitespace).reverse.dropWhile
    Char.isWhitespace).reverse)

/-- The guard at the top of `useChat.sendMessage`:
`if (isLoading || !message.trim()) return;`. -/
def sendAccepts (st : ChatState) (message : String) : Bool :=
  !st.isLoading && !strFalsy (jsTrim message)

/-- The optimistic user ChatMessage built in `sendMessage`:
client-generated `Date.now()` id and current timestamp. -/
def mkUserMessage (message : String) (env : SendEnv) : ChatMessage :=
  { id := env.now
    message_type := .user
    content := message
    timestamp := env.nowIso
    evaluation_score := none
    retrieved_context := none }

/-- The assistant ChatMessage built from a successful ChatResponse:
every field is taken from the response. -/
def mkAssistantMessage (r : ChatResponse) : ChatMessage :=
  { id := r.message_id
    message_type := .assistant
    content := r.response
    timestamp := r.timestamp
    evaluation_score := r.evaluation_score
    retrieved_context := some r.retrieved_context }

/-- The assistant error ChatMessage built in the catch branch of
`sendMessage`. -/
def mkErrorMessage (e : JsError) (env : SendEnv) : ChatMessage :=
  { id := env.errNow + 1
    message_type := .assistant
    content := "❌ Error: " ++ errorText e "Failed to send message" ++ ". Please try again."
    timestamp := env.errIso
    evaluation_score := none
    retrieved_context := none }

/-- Synchronous phase of `useChat.sendMessage`, up to the `await`: the
guard, the `lastMessageRef` write, `isLoading=true`, error clear, the
optimistic user append, and the POST /chat/message call carrying the
current session id. -/
def sendStart (st : ChatState) (message : String) (env : SendEnv) :
    ChatState × List ApiCall :=
  if sendAccepts st message then
    ({ st with
        lastMessageRef := message
        isLoading := true
        error := none
        messages := st.messages ++ [mkUserMessage message env] },
     [.sendMessageCall message st.currentSessionId])
  else (st, [])

/-- The success continuation of `sendMessage`: appends the assistant
message built from the response and (via `finally`) clears `isLoading`.
It runs against whatever state exists when the response arrives and
performs no session-identity check. -/
def sendSuccess (st : ChatState) (r : ChatResponse) : ChatState :=
  { st with
      messages := st.messages ++ [mkAssistantMessage r]
      isLoading := false }

/-- The catch continuation of `sendMessage`: records the error text,
appends the marked error turn, and (via `finally`) clears `isLoading`. -/
def sendFailure (st : ChatState) (e : JsError) (env : SendEnv) : ChatState :=
  { st with
      error := some (errorText e "Failed to send message")
      messages := st.messages ++ [mkErrorMessage e env]
      isLoading := false }

/-- Whole-operation `useChat.sendMessage` with no interleaved events:
start phase followed immediately by the outcome continuation. The
function is total — a failing remote call is absorbed into the state and
never re-thrown past the store boundary. -/
def sendMessage (st : ChatState) (message : String) (env : SendEnv)
    (outcome : Except JsError ChatResponse) : ChatState × List ApiCall :=
  let s := sendStart st message env
  if sendAccepts st message then
    match outcome with
    | .ok r => (sendSuccess s.1 r, s.2)
    | .error e => (sendFailure s.1 e env, s.2)
  else s

/-- `useChat.clearChat`: clears the message log and error only. -/
def clearChat (st : ChatState) : ChatState × List ApiCall :=
  ({ st with messages := [], error := none }, [])

/-- `useChat.startNewChat`: clears the log, installs a freshly generated
session id, clears the error. It does not touch `isLoading` and issues
no API call. -/
def startNewChat (st : ChatState) (now : Int) (rand : String) :
    ChatState × List ApiCall :=
  ({ st with
      messages := []
      currentSessionId := generateSessionId now rand
      error := none }, [])

/-- Synchronous phase of `useChat.loadSession` before the `await`:
`isLoading=true`, error cleared. -/
def loadStart (st : ChatState) : ChatState :=
  { st with isLoading := true, error := none }

/-- Completion of `loadSession`: on success, one state transition
installs both the fetched log and the session id; on failure only the
error is recorded; `finally` clears `isLoading` in both cases. -/
def loadComplete (st : ChatState) (sessionId : String)
    (outcome : Except JsError ChatHistoryResponse) : ChatState :=
  match outcome with
  | .ok h =>
      { st with
          messages := h.messages
          currentSessionId := sessionId
          isLoading := false }
  | .error e =>
      { st with
          error := some (errorText e "Failed to load chat history")
          isLoading := false }

/-- Whole-operation `useChat.loadSession`: issues one GET /chat/history
request. `useChat` passes only the session id, so the service defaults
apply — the first page of 50 messages (limit 50, offset 0); the
response's `has_more` is never consulted and no further page is
requested. -/
def loadSession (st : ChatState) (sessionId : String)
    (outcome : Except JsError ChatHistoryResponse) : ChatState × List ApiCall :=
  (loadComplete (loadStart st) sessionId outcome, [.getChatHistory sessionId 50 0])

/-- `startsWithL p l` decides whether `p` is an initial segment of `l`. -/
def startsWithL : List Char → List Char → Bool
  | [], _ => true
  | _ :: _, [] => false
  | p :: ps, c :: cs => p == c && startsWithL ps cs

/-- `containsSub pat l` decides whether `pat` occurs contiguously in `l`. -/
def containsSub (pat : List Char) : List Char → Bool
  | [] => pat.isEmpty
  | c :: cs => startsWithL pat (c :: cs) || containsSub pat cs

/-- `String.prototype.includes`: substring containment. -/
def stringIncludes (s pat : String) : Bool :=
  containsSub pat.data s.data

/-- The substring `retryLastMessage` greps for to recognise error turns. -/
def errorMarker : String := "❌ Error:"

/-- The filter predicate of `retryLastMessage`:
`msg.message_type === 'assistant' && msg.content.includes('❌ Error:')`. -/
def isErrorTurn (m : ChatMessage) : Bool :=
  decide (m.message_type = MessageType.assistant) && stringIncludes m.content errorMarker

/-- The log cleanup performed by `retryLastMessage`. -/
def removeErrorTurns (l : List ChatMessage) : List ChatMessage :=
  l.filter fun m => !isErrorTurn m

/-- `useChat.retryLastMessage`: no-op when `lastMessageRef.current` is
falsy (the empty string); otherwise drops every error turn from the log
and re-invokes `sendMessage` with the retained input. -/
def retryLastMessage (st : ChatState) (env : SendEnv)
    (outcome : Except JsError ChatResponse) : ChatState × List ApiCall :=
  if strFalsy st.lastMessageRef then (st, [])
  else
    sendMessage { st with messages := removeErrorTurns st.messages }
      st.lastMessageRef env outcome

/-- State owned by the `useChatHistory` hook (session directory). -/
structure HistoryState where
  sessions : List ChatSession
  loading : Bool
  error : Option String
deriving DecidableEq

/-- `useChatHistory.deleteSession`: the remote delete is issued first;
only on success is the entry filtered out of the local list, on failure
only the error is recorded. -/
def deleteSession (st : HistoryState) (sessionId : String)
    (outcome : Except JsError Unit) : HistoryState × List ApiCall :=
  match outcome with
  | .ok _ =>
      ({ st with
          sessions := st.sessions.filter fun s => s.session_id != sessionId },
       [.deleteChatSession sessionId])
  | .error e =>
      ({ st with error := some (errorText e "Failed to delete session") },
       [.deleteChatSession sessionId])

/-- `validateMessage` (utils/helpers.ts). -/
structure ValidationResult where
  isValid : Bool
  error : Option String
deriving DecidableEq

/-- `validateMessage` (utils/helpers.ts): blank check, then the 2000
character cap. -/
def validateMessage (message : String) : ValidationResult :=
  if strFalsy (jsTrim message) then
    { isValid := false, error := some "Message cannot be empty" }
  else if message.length > 2000 then
    { isValid := false, error := some "Message is too long (max 2000 characters)" }
  else
    { isValid := true, error := none }

/-- Outcome of `MessageInput.handleSubmit`: whether `onSendMessage` was
invoked, and the input-surface error shown otherwise. -/
structure SubmitOutcome where
  calledSend : Bool
  inputError : Option String
deriving DecidableEq

/-- `MessageInput.handleSubmit` (chat-component.tsx): runs
`validateMessage` and forwards to `onSendMessage` only when valid;
validation failures stay on the input surface. -/
def handleSubmit (message : String) : SubmitOutcome :=
  let v := validateMessage message
  if v.isValid then { calledSend := true, inputError := none }
  else { calledSend := false, inputError := some (v.error.getD "Invalid message") }

/-- The scroll decision of the `useAutoScroll` effect (as a function of
the viewport geometry read when the effect runs):
`enabled && elementRef.current && scrollTop > (scrollHeight - clientHeight) - 100`. -/
def useAutoScrollEffect (enabled hasElement : Bool)
    (scrollTop scrollHeight clientHeight : Int) : Bool :=
  enabled && hasElement && decide (scrollTop > scrollHeight - clientHeight - 100)

/-- The scroll decision of the effect inside `ChatInterface`
(chat-component.tsx): `messagesEndRef.current.scrollIntoView(...)` runs
whenever the ref exists — the viewport geometry is never consulted. -/
def chatInterfaceScroll (hasEndRef : Bool)
    (_scrollTop _scrollHeight _clientHeight : Int) : Bool :=
  hasEndRef

/-! Concrete fixtures used by witnesses and counterexamples. -/

/-- A fresh store state, as produced at mount time. -/
def sampleState : ChatState :=
  { messages := []
    currentSessionId := "session-0-x"
    isLoading := false
    error := none
    lastMessageRef := "" }

/-- A fixed environment for one send. -/
def sampleEnv : SendEnv :=
  { now := 100, nowIso := "t0", errNow := 200, errIso := "t1" }

/-- A concrete successful service response, bound to `sampleState`'s
session. -/
def sampleResponse : ChatResponse :=
  { message_id := 7
    session_id := "session-0-x"
    response := "ans"
    evaluation_score := none
    retrieved_context := []
    response_time := 0
    timestamp := "t9"
    is_medical := true
    query_type := none }

/-- A 2001-character input, one past the configured cap. -/
def longStr : String :=
  String.mk (List.replicate 2001 'a')

/-! Helper lemmas. -/

theorem startsWithL_self_append (p t : List Char) :
    startsWithL p (p ++ t) = true := by
  induction p with
  | nil => rfl
  | cons c cs ih => simp [startsWithL, ih]

theorem containsSub_of_starts {pat l : List Char}
    (h : startsWithL pat l = true) : containsSub pat l = true := by
  cases l with
  | nil =>
    cases pat with
    | nil => rfl
    | cons c cs => simp [startsWithL] at h
  | cons c cs => simp [containsSub, h]

theorem errorContent_includes_marker (t : String) :
    stringIncludes ("❌ Error: " ++ t ++ ". Please try again.") errorMarker = true := by
  have hsplit : ("❌ Error: " : String).data = errorMarker.data ++ [' '] := by decide
  apply containsSub_of_starts
  show startsWithL errorMarker.data ("❌ Error: " ++ t ++ ". Please try again.").data = true
  rw [String.data_append, String.data_append, hsplit, List.append_assoc,
    List.append_assoc]
  exact startsWithL_self_append _ _

theorem isErrorTurn_mkErrorMessage (e : JsError) (env : SendEnv) :
    isErrorTurn (mkErrorMessage e env) = true := by
  simp [isErrorTurn, mkErrorMessage, errorContent_includes_marker]

theorem sendMessage_ok (st : ChatState) (message : String) (env : SendEnv)
    (r : ChatResponse) (h : sendAccepts st message = true) :
    sendMessage st message env (.ok r) =
      ({ st with
          lastMessageRef := message
          isLoading := false
          error := none
          messages := st.messages ++ [mkUserMessage message env, mkAssistantMessage r] },
       [.sendMessageCall message st.currentSessionId]) := by
  simp [sendMessage, sendStart, sendSuccess, h]

theorem sendMessage_error (st : ChatState) (message : String) (env : SendEnv)
    (e : JsError) (h : sendAccepts st message = true) :
    sendMessage st message env (.error e) =
      ({ st with
          lastMessageRef := message
          isLoading := false
          error := some (errorText e "Failed to send message")
          messages := st.messages ++ [mkUserMessage message env, mkErrorMessage e env] },
       [.sendMessageCall message st.currentSessionId]) := by
  simp [sendMessage, sendStart, sendFailure, h]

theorem sendMessage_rejected (st : ChatState) (message : String) (env : SendEnv)
    (outcome : Except JsError ChatResponse) (h : sendAccepts st message = false) :
    sendMessage st message env outcome = (st, []) := by
  simp [sendMessage, sendStart, h]

theorem dropWhile_ws_replicate_a (n : Nat) :
    (List.replicate n 'a').dropWhile Char.isWhitespace = List.replicate n 'a' := by
  rw [List.dropWhile_replicate]
  simp

theorem jsTrim_replicate_a (n : Nat) :
    jsTrim (String.mk (List.replicate n 'a')) = String.mk (List.replicate n 'a') := by
  simp [jsTrim, dropWhile_ws_replicate_a]

theorem strFalsy_replicate_succ (n : Nat) (c : Char) :
    strFalsy (String.mk (List.replicate (n + 1) c)) = false := by
  simp [strFalsy, List.replicate_succ]

theorem sendAccepts_longStr : sendAccepts sampleState longStr = true := by
  have h1 : jsTrim longStr = longStr := jsTrim_replicate_a 2001
  have h2 : strFalsy longStr = false := strFalsy_replicate_succ 2000 'a'
  show (!sampleState.isLoading && !strFalsy (jsTrim longStr)) = true
  rw [h1, h2]
  rfl

theorem longStr_length : longStr.length = 2001 := by
  show (String.mk (List.replicate 2001 'a')).length = 2001
  rw [String.length_mk, List.length_replicate]

theorem strFalsy_eq_false_of_ne {s : String} (h : s ≠ "") : strFalsy s = false := by
  cases s with
  | mk data =>
    cases data with
    | nil => exact absurd rfl h
    | cons c cs => rfl

/-- A state with a retained previous input and one error turn in the log. -/
def retrySt : ChatState :=
  { sampleState with
      lastMessageRef := "hi"
      messages := [mkErrorMessage (JsError.err "boom") sampleEnv] }

/-! Claim theorems. -/

/-- Claim C1: for every accepted input Q, a successful send extends the
message log by exactly two entries — a user turn with content Q followed
by one assistant turn whose id, content, timestamp, evaluation score and
retrieved context are the service response's own values — and
`isLoading` is false when the operation completes. -/
theorem C1_sendMessage_success (st : ChatState) (message : String)
    (env : SendEnv) (r : ChatResponse) (h : sendAccepts st message = true) :
    (sendMessage st message env (.ok r)).1.messages =
        st.messages ++ [mkUserMessage message env, mkAssistantMessage r] ∧
      (mkUserMessage message env).message_type = MessageType.user ∧
      (mkUserMessage message env).content = message ∧
      (mkAssistantMessage r).message_type = MessageType.assistant ∧
      (mkAssistantMessage r).id = r.message_id ∧
      (mkAssistantMessage r).content = r.response ∧
      (mkAssistantMessage r).timestamp = r.timestamp ∧
      (mkAssistantMessage r).evaluation_score = r.evaluation_score ∧
      (mkAssistantMessage r).retrieved_context = some r.retrieved_context ∧
      (sendMessage st message env (.ok r)).1.isLoading = false := by
  rw [sendMessage_ok st message env r h]
  exact ⟨rfl, rfl, rfl, rfl, rfl, rfl, rfl, rfl, rfl, rfl⟩

/-- Witness for C1 at a concrete accepted input. -/
theorem C1_witness :
    sendAccepts sampleState "hi" = true ∧
      ((sendMessage sampleState "hi" sampleEnv (.ok sampleResponse)).1.messages =
          sampleState.messages ++
            [mkUserMessage "hi" sampleEnv, mkAssistantMessage sampleResponse] ∧
        (mkUserMessage "hi" sampleEnv).message_type = MessageType.user ∧
        (mkUserMessage "hi" sampleEnv).content = "hi" ∧
        (mkAssistantMessage sampleResponse).message_type = MessageType.assistant ∧
        (mkAssistantMessage sampleResponse).id = sampleResponse.message_id ∧
        (mkAssistantMessage sampleResponse).content = sampleResponse.response ∧
        (mkAssistantMessage sampleResponse).timestamp = sampleResponse.timestamp ∧
        (mkAssistantMessage sampleResponse).evaluation_score =
          sampleResponse.evaluation_score ∧
        (mkAssistantMessage sampleResponse).retrieved_context =
          some sampleResponse.retrieved_context ∧
        (sendMessage sampleState "hi" sampleEnv (.ok sampleResponse)).1.isLoading = false) :=
  ⟨by decide, C1_sendMessage_success sampleState "hi" sampleEnv sampleResponse (by decide)⟩

/-- Claim C2: for every accepted input, a failed send records the
human-readable error text in the store's error field, appends exactly
one marked assistant error turn after the retained user turn, clears
`isLoading`, keeps the retained input for retry, and absorbs the failure
into the state (sendMessage is total — nothing is re-thrown). -/
theorem C2_sendMessage_failure (st : ChatState) (message : String)
    (env : SendEnv) (e : JsError) (h : sendAccepts st message = true) :
    (sendMessage st message env (.error e)).1.messages =
        st.messages ++ [mkUserMessage message env, mkErrorMessage e env] ∧
      (mkUserMessage message env).message_type = MessageType.user ∧
      (mkUserMessage message env).content = message ∧
      (mkErrorMessage e env).message_type = MessageType.assistant ∧
      isErrorTurn (mkErrorMessage e env) = true ∧
      (sendMessage st message env (.error e)).1.error =
        some (errorText e "Failed to send message") ∧
      (sendMessage st message env (.error e)).1.isLoading = false ∧
      (sendMessage st message env (.error e)).1.lastMessageRef = message := by
  rw [sendMessage_error st message env e h]
  exact ⟨rfl, rfl, rfl, rfl, isErrorTurn_mkErrorMessage e env, rfl, rfl, rfl⟩

/-- Witness for C2 at a concrete failing send. -/
theorem C2_witness :
    sendAccepts sampleState "hi" = true ∧
      ((sendMessage sampleState "hi" sampleEnv (.error (JsError.err "boom"))).1.messages =
          sampleState.messages ++
            [mkUserMessage "hi" sampleEnv, mkErrorMessage (JsError.err "boom") sampleEnv] ∧
        (mkUserMessage "hi" sampleEnv).message_type = MessageType.user ∧
        (mkUserMessage "hi" sampleEnv).content = "hi" ∧
        (mkErrorMessage (JsError.err "boom") sampleEnv).message_type =
          MessageType.assistant ∧
        isErrorTurn (mkErrorMessage (JsError.err "boom") sampleEnv) = true ∧
        (sendMessage sampleState "hi" sampleEnv (.error (JsError.err "boom"))).1.error =
          some (errorText (JsError.err "boom") "Failed to send message") ∧
        (sendMessage sampleState "hi" sampleEnv
            (.error (JsError.err "boom"))).1.isLoading = false ∧
        (sendMessage sampleState "hi" sampleEnv
            (.error (JsError.err "boom"))).1.lastMessageRef = "hi") :=
  ⟨by decide,
   C2_sendMessage_failure sampleState "hi" sampleEnv (JsError.err "boom") (by decide)⟩

/-- Claim C3: `retryLastMessage` is a no-op when no prior input is
recorded; otherwise it removes every error-marked assistant turn (never
a user turn) and re-invokes `sendMessage` with the retained input; the
error-turn cleanup is idempotent. -/
theorem C3_retryLastMessage :
    (∀ (st : ChatState) (env : SendEnv) (o : Except JsError ChatResponse),
        st.lastMessageRef = "" → retryLastMessage st env o = (st, [])) ∧
      (∀ (st : ChatState) (env : SendEnv) (o : Except JsError ChatResponse),
        st.lastMessageRef ≠ "" →
          retryLastMessage st env o =
            sendMessage { st with messages := removeErrorTurns st.messages }
              st.lastMessageRef env o) ∧
      (∀ (l : List ChatMessage) (m : ChatMessage),
        m ∈ removeErrorTurns l → isErrorTurn m = false) ∧
      (∀ (l : List ChatMessage) (m : ChatMessage),
        m ∈ l → m.message_type = MessageType.user → m ∈ removeErrorTurns l) ∧
      (∀ l : List ChatMessage,
        removeErrorTurns (removeErrorTurns l) = removeErrorTurns l) := by
  refine ⟨?_, ?_, ?_, ?_, ?_⟩
  · intro st env o h
    have hf : strFalsy st.lastMessageRef = true := by rw [h]; rfl
    simp [retryLastMessage, hf]
  · intro st env o h
    simp [retryLastMessage, strFalsy_eq_false_of_ne h]
  · intro l m hm
    have h2 := (List.mem_filter.mp hm).2
    simpa using h2
  · intro l m hm huser
    refine List.mem_filter.mpr ⟨hm, ?_⟩
    simp [isErrorTurn, huser]
  · intro l
    simp [removeErrorTurns, List.filter_filter]

/-- Witness for C3 at concrete states: the empty-ref no-op, the
filter-then-resend path, user-turn retention, and cleanup idempotence. -/
theorem C3_witness :
    retryLastMessage sampleState sampleEnv (.ok sampleResponse) = (sampleState, []) ∧
      retryLastMessage retrySt sampleEnv (.ok sampleResponse) =
        sendMessage { retrySt with messages := removeErrorTurns retrySt.messages }
          retrySt.lastMessageRef sampleEnv (.ok sampleResponse) ∧
      isErrorTurn (mkUserMessage "hi" sampleEnv) = false ∧
      mkUserMessage "hi" sampleEnv ∈ removeErrorTurns [mkUserMessage "hi" sampleEnv] ∧
      removeErrorTurns (removeErrorTurns retrySt.messages) =
        removeErrorTurns retrySt.messages :=
  ⟨C3_retryLastMessage.1 sampleState sampleEnv (.ok sampleResponse) rfl,
   C3_retryLastMessage.2.1 retrySt sampleEnv (.ok sampleResponse) (by decide),
   C3_retryLastMessage.2.2.1 [mkUserMessage "hi" sampleEnv]
     (mkUserMessage "hi" sampleEnv) (by decide),
   C3_retryLastMessage.2.2.2.1 [mkUserMessage "hi" sampleEnv]
     (mkUserMessage "hi" sampleEnv) (by decide) rfl,
   C3_retryLastMessage.2.2.2.2 retrySt.messages⟩

/-- Counterexample to C4 as stated: `useChat.sendMessage` itself checks
only `isLoading` and blankness — invoked with a 2001-character non-blank
input it appends the user turn to the log and issues the network call. -/
theorem C4_counterexample :
    longStr.length > 2000 ∧
      (sendMessage sampleState longStr sampleEnv (.ok sampleResponse)).1.messages ≠
        sampleState.messages ∧
      (sendMessage sampleState longStr sampleEnv (.ok sampleResponse)).2 ≠ [] := by
  rw [sendMessage_ok sampleState longStr sampleEnv sampleResponse sendAccepts_longStr,
    longStr_length]
  refine ⟨by omega, ?_, ?_⟩ <;> simp [sampleState]

/-- Claim C4 (amended): `sendMessage` is a no-op for blank or
whitespace-only input and whenever `isLoading` is already true (log and
network untouched); the 2000-character cap is enforced before
`sendMessage` by the input surface — for every over-long input
`validateMessage` reports invalid and `handleSubmit` does not invoke
`sendMessage`, so no network call is made and nothing is appended —
while `sendMessage` itself performs no length check. -/
theorem C4_validation_amended :
    (∀ (st : ChatState) (message : String) (env : SendEnv)
        (o : Except JsError ChatResponse),
        strFalsy (jsTrim message) = true → sendMessage st message env o = (st, [])) ∧
      (∀ (st : ChatState) (message : String) (env : SendEnv)
        (o : Except JsError ChatResponse),
        st.isLoading = true → sendMessage st message env o = (st, [])) ∧
      (∀ message : String, message.length > 2000 →
        (validateMessage message).isValid = false ∧
          (handleSubmit message).calledSend = false) := by
  refine ⟨?_, ?_, ?_⟩
  · intro st message env o h
    exact sendMessage_rejected st message env o (by simp [sendAccepts, h])
  · intro st message env o h
    exact sendMessage_rejected st message env o (by simp [sendAccepts, h])
  · intro message h
    have hv : (validateMessage message).isValid = false := by
      by_cases hb : strFalsy (jsTrim message) = true
      · simp [validateMessage, hb]
      · simp [validateMessage, hb, h]
    exact ⟨hv, by simp [handleSubmit, hv]⟩

/-- A state in which a send is already in flight. -/
def loadingSt : ChatState :=
  { sampleState with isLoading := true }

/-- Witness for the amended C4: a whitespace-only input, a send while
loading, and the 2001-character input at the input surface. -/
theorem C4_witness :
    strFalsy (jsTrim " ") = true ∧
      sendMessage sampleState " " sampleEnv (.ok sampleResponse) = (sampleState, []) ∧
      loadingSt.isLoading = true ∧
      sendMessage loadingSt "hi" sampleEnv (.ok sampleResponse) = (loadingSt, []) ∧
      longStr.length > 2000 ∧
      (validateMessage longStr).isValid = false ∧
      (handleSubmit longStr).calledSend = false := by
  have hlen : longStr.length > 2000 := by rw [longStr_length]; omega
  have h3 := C4_validation_amended.2.2 longStr hlen
  exact ⟨by decide,
    C4_validation_amended.1 sampleState " " sampleEnv (.ok sampleResponse) (by decide),
    rfl,
    C4_validation_amended.2.1 loadingSt "hi" sampleEnv (.ok sampleResponse) rfl,
    hlen, h3.1, h3.2⟩

/-- The state reached when a send for `sampleState`'s session is in
flight and the user then starts a new chat: the active session id has
moved on, but the old send's continuation is still pending. -/
def staleScenarioSt : ChatState :=
  (startNewChat (sendStart sampleState "hello" sampleEnv).1 5 "z").1

/-- Claim C5 (refuted by the code, spec is the stated intent): the
success continuation of `sendMessage` appends unconditionally — it
never compares the session the send was issued against with the
currently active session — so a late response lands in the log of the
session the user has since switched to. -/
theorem C5_stale_response_applied :
    (∀ (st : ChatState) (r : ChatResponse),
        (sendSuccess st r).messages = st.messages ++ [mkAssistantMessage r]) ∧
      staleScenarioSt.currentSessionId ≠ sampleResponse.session_id ∧
      mkAssistantMessage sampleResponse ∈
        (sendSuccess staleScenarioSt sampleResponse).messages :=
  ⟨fun _ _ => rfl, by decide, by decide⟩

/-- The first page of a session holding more messages than one page:
`has_more` is set and `total_count` exceeds what the page carries. -/
def pagedHistory : ChatHistoryResponse :=
  { session_id := "s1"
    messages := [mkUserMessage "old" sampleEnv]
    total_count := 60
    has_more := true }

/-- Counterexample to C6 as stated: `loadSession` does not fetch the
full history — it issues exactly one request for the first page (limit
50, offset 0), and fed the first page of a 60-message session with
`has_more` set it installs that page as the whole log and requests no
further page. -/
theorem C6_counterexample :
    (loadSession sampleState "s1" (.ok pagedHistory)).2 =
        [ApiCall.getChatHistory "s1" 50 0] ∧
      pagedHistory.has_more = true ∧
      ((loadSession sampleState "s1" (.ok pagedHistory)).1.messages.length : Int) <
        pagedHistory.total_count ∧
      (loadSession sampleState "s1" (.ok pagedHistory)).2.length = 1 :=
  ⟨rfl, rfl, by decide, rfl⟩

/-- Claim C6 (amended): `loadSession` sets `isLoading`, requests one
page of history (the service defaults: limit 50, offset 0 — not the
full history; `has_more` is ignored and no further page is fetched),
and on success replaces the log (with exactly that page) and the active
session id together in one transition, the pre-completion state still
carrying the old log unchanged; on failure it records the error and
leaves both untouched; `isLoading` is cleared in both cases. -/
theorem C6_loadSession :
    (∀ (st : ChatState) (sid : String) (h : ChatHistoryResponse),
        (loadSession st sid (.ok h)).1.messages = h.messages ∧
          (loadSession st sid (.ok h)).1.currentSessionId = sid ∧
          (loadSession st sid (.ok h)).1.isLoading = false ∧
          (loadSession st sid (.ok h)).1.error = none ∧
          (loadSession st sid (.ok h)).2 = [ApiCall.getChatHistory sid 50 0]) ∧
      (∀ (st : ChatState) (sid : String) (e : JsError),
        (loadSession st sid (.error e)).1.messages = st.messages ∧
          (loadSession st sid (.error e)).1.currentSessionId = st.currentSessionId ∧
          (loadSession st sid (.error e)).1.error =
            some (errorText e "Failed to load chat history") ∧
          (loadSession st sid (.error e)).1.isLoading = false) ∧
      (∀ st : ChatState,
        (loadStart st).messages = st.messages ∧
          (loadStart st).currentSessionId = st.currentSessionId ∧
          (loadStart st).isLoading = true ∧
          (loadStart st).error = none) :=
  ⟨fun _ _ _ => ⟨rfl, rfl, rfl, rfl, rfl⟩,
   fun _ _ _ => ⟨rfl, rfl, rfl, rfl⟩,
   fun _ => ⟨rfl, rfl, rfl, rfl⟩⟩

/-- Counterexample to C7 as stated: `startNewChat` does not clear the
loading state — starting a new chat while a send is in flight leaves
`isLoading` true. -/
theorem C7_counterexample :
    loadingSt.isLoading = true ∧ (startNewChat loadingSt 5 "z").1.isLoading = true :=
  ⟨rfl, rfl⟩

/-- Claim C7 (amended): `startNewChat` yields an empty log, installs the
freshly generated session identifier (different from the previous one
whenever the generated id is fresh), clears the error, performs no
remote call — but leaves the loading flag unchanged rather than
clearing it. -/
theorem C7_startNewChat_amended (st : ChatState) (now : Int) (rand : String) :
    (startNewChat st now rand).1.messages = [] ∧
      (startNewChat st now rand).1.currentSessionId = generateSessionId now rand ∧
      (startNewChat st now rand).1.error = none ∧
      (startNewChat st now rand).1.isLoading = st.isLoading ∧
      (startNewChat st now rand).2 = [] ∧
      (generateSessionId now rand ≠ st.currentSessionId →
        (startNewChat st now rand).1.currentSessionId ≠ st.currentSessionId) :=
  ⟨rfl, rfl, rfl, rfl, rfl, fun h => h⟩

/-- Witness for the amended C7 at a concrete state and fresh id. -/
theorem C7_witness :
    (startNewChat sampleState 5 "z").1.messages = [] ∧
      (startNewChat sampleState 5 "z").1.currentSessionId = generateSessionId 5 "z" ∧
      (startNewChat sampleState 5 "z").1.error = none ∧
      (startNewChat sampleState 5 "z").1.isLoading = sampleState.isLoading ∧
      (startNewChat sampleState 5 "z").2 = [] ∧
      generateSessionId 5 "z" ≠ sampleState.currentSessionId ∧
      (startNewChat sampleState 5 "z").1.currentSessionId ≠ sampleState.currentSessionId := by
  have h := C7_startNewChat_amended sampleState 5 "z"
  exact ⟨h.1, h.2.1, h.2.2.1, h.2.2.2.1, h.2.2.2.2.1, by decide,
    h.2.2.2.2.2 (by decide)⟩

theorem sendMessage_calls (st : ChatState) (message : String) (env : SendEnv)
    (o : Except JsError ChatResponse) (h : sendAccepts st message = true) :
    (sendMessage st message env o).2 =
      [ApiCall.sendMessageCall message st.currentSessionId] := by
  cases o with
  | ok r => rw [sendMessage_ok st message env r h]
  | error e => rw [sendMessage_error st message env e h]

theorem strFalsy_of_jsTrim {s : String} (h : strFalsy (jsTrim s) = false) :
    strFalsy s = false := by
  cases s with
  | mk data =>
    cases data with
    | nil => simp [jsTrim, strFalsy] at h
    | cons c cs => rfl

/-- Claim C8: `deleteSession` always issues the remote delete; on
failure the session list is exactly what it was and the error is
recorded, and only on success is the entry (every occurrence of the id,
and nothing else) removed from the local list. -/
theorem C8_deleteSession :
    (∀ (st : HistoryState) (sid : String) (e : JsError),
        (deleteSession st sid (.error e)).1.sessions = st.sessions ∧
          (deleteSession st sid (.error e)).1.error =
            some (errorText e "Failed to delete session") ∧
          (deleteSession st sid (.error e)).2 = [ApiCall.deleteChatSession sid]) ∧
      (∀ (st : HistoryState) (sid : String) (s : ChatSession),
        s ∈ (deleteSession st sid (.ok ())).1.sessions ↔
          s ∈ st.sessions ∧ s.session_id ≠ sid) ∧
      (∀ (st : HistoryState) (sid : String),
        (deleteSession st sid (.ok ())).2 = [ApiCall.deleteChatSession sid]) := by
  refine ⟨fun st sid e => ⟨rfl, rfl, rfl⟩, ?_, fun st sid => rfl⟩
  intro st sid s
  simp [deleteSession, bne_iff_ne]

/-- Counterexample to C9 as stated: the scroll effect the app actually
mounts (`ChatInterface`) never inspects the offset — with the viewport
900 px above the bottom (scrollTop 0, scrollHeight 1000, clientHeight
100) it still scrolls down on a log-growth event. -/
theorem C9_counterexample :
    ¬((1000 : Int) - 100 - 0 < 100) ∧ chatInterfaceScroll true 0 1000 100 = true :=
  ⟨by decide, rfl⟩

/-- Claim C9 (amended): the `useAutoScroll` hook scrolls exactly when
the offset read at the growth event is within 100 px of the bottom
(evaluated fresh from the geometry each time); but the `ChatInterface`
component the app renders scrolls unconditionally whenever its end ref
exists, regardless of the offset. -/
theorem C9_autoScroll_amended :
    (∀ scrollTop scrollHeight clientHeight : Int,
        useAutoScrollEffect true true scrollTop scrollHeight clientHeight = true ↔
          scrollHeight - clientHeight - scrollTop < 100) ∧
      (∀ (hasEndRef : Bool) (scrollTop scrollHeight clientHeight : Int),
        chatInterfaceScroll hasEndRef scrollTop scrollHeight clientHeight = hasEndRef) := by
  refine ⟨?_, fun _ _ _ _ => rfl⟩
  intro st sh ch
  simp [useAutoScrollEffect]
  omega

/-- Claim C10: the retained last-attempted input survives `clearChat`,
`startNewChat` and `loadSession`; hence retrying right after starting a
new chat re-sends the previous session's last attempted message into the
now-active session. -/
theorem C10_lastMessageRef_survives :
    (∀ st : ChatState, (clearChat st).1.lastMessageRef = st.lastMessageRef) ∧
      (∀ (st : ChatState) (now : Int) (rand : String),
        (startNewChat st now rand).1.lastMessageRef = st.lastMessageRef) ∧
      (∀ (st : ChatState) (sid : String) (o : Except JsError ChatHistoryResponse),
        (loadSession st sid o).1.lastMessageRef = st.lastMessageRef) ∧
      (∀ (st : ChatState) (now : Int) (rand : String) (env : SendEnv)
        (o : Except JsError ChatResponse),
        st.isLoading = false → strFalsy (jsTrim st.lastMessageRef) = false →
          (retryLastMessage (startNewChat st now rand).1 env o).2 =
            [ApiCall.sendMessageCall st.lastMessageRef (generateSessionId now rand)]) := by
  refine ⟨fun _ => rfl, fun _ _ _ => rfl, ?_, ?_⟩
  · intro st sid o
    cases o <;> rfl
  · intro st now rand env o h1 h2
    have hrf : strFalsy (startNewChat st now rand).1.lastMessageRef = false :=
      strFalsy_of_jsTrim h2
    have hacc : sendAccepts
        { (startNewChat st now rand).1 with
            messages := removeErrorTurns (startNewChat st now rand).1.messages }
        (startNewChat st now rand).1.lastMessageRef = true := by
      show (!st.isLoading && !strFalsy (jsTrim st.lastMessageRef)) = true
      rw [h1, h2]
      rfl
    simp only [retryLastMessage, hrf, Bool.false_eq_true, if_false]
    rw [sendMessage_calls _ _ _ _ hacc]
    rfl

/-- Witness for C10: after a failed send of "hi" the user starts a new
chat; retrying sends "hi" into the new session. -/
theorem C10_witness :
    retrySt.isLoading = false ∧
      strFalsy (jsTrim retrySt.lastMessageRef) = false ∧
      (retryLastMessage (startNewChat retrySt 5 "z").1 sampleEnv
          (.ok sampleResponse)).2 =
        [ApiCall.sendMessageCall retrySt.lastMessageRef (generateSessionId 5 "z")] :=
  ⟨rfl, by decide,
   C10_lastMessageRef_survives.2.2.2 retrySt 5 "z" sampleEnv (.ok sampleResponse)
     rfl (by decide)⟩

end MedAssist
